import Mathlib

/-!
# Verification of the VIC_SAVE_PUCK forecasting / drift-detection core

A shallow embedding, over `List`-shaped tables and exact rationals, of:

* `src/vic_save_puck/data/profiles.py` — `build_profiles_from_data`
  (stand / item / stand-item demand curves, per-capita curves);
* `src/vic_save_puck/models/forecast.py` — `derive_archetype`,
  `generate_forecast`, `_apply_prep_target`;
* `src/vic_save_puck/models/drift.py` — `DriftSignal.severity`,
  `DriftDetector.ingest_event` / `check_drift`;
* `src/vic_save_puck/models/traffic_light.py` — `classify_status`,
  `TrafficLightMonitor.update`;
* `src/vic_save_puck/validation/backtest.py` — the prep-coverage metric of
  `run_backtest`;
* the constants of `src/vic_save_puck/config.py` that these consume.

Pandas `DataFrame`s are embedded as lists of records, `groupby` as
deduplicated key lists with explicit filtered sums, float arithmetic as exact
`ℚ` arithmetic, and numpy's `round` (round-half-to-even) as `roundHalfEven`
below.  Dictionaries with `.get(key, default)` access become association
lists with `find?`-based lookup.  The mutable `DriftDetector` accumulators
are represented by the list of ingested events, with each running sum
computed from that list (`ingest_event` is list append).
-/

/-! ## Round-half-to-even (numpy / pandas `round`) -/

/-- Numpy's `round` on a scalar: round to the nearest integer, ties going to
the even neighbour. -/
def roundHalfEven (x : ℚ) : ℤ :=
  if x - ⌊x⌋ < 1/2 then ⌊x⌋
  else if 1/2 < x - ⌊x⌋ then ⌊x⌋ + 1
  else if ⌊x⌋ % 2 = 0 then ⌊x⌋ else ⌊x⌋ + 1

/-- Pandas `Series.round(d)`: round to `d` decimal places. -/
def roundTo (d : ℕ) (x : ℚ) : ℚ := (roundHalfEven (x * 10 ^ d) : ℚ) / 10 ^ d

theorem roundHalfEven_eq_floor_or (x : ℚ) :
    roundHalfEven x = ⌊x⌋ ∨ roundHalfEven x = ⌊x⌋ + 1 := by
  unfold roundHalfEven
  split
  · exact Or.inl rfl
  · split
    · exact Or.inr rfl
    · split
      · exact Or.inl rfl
      · exact Or.inr rfl

theorem floor_le_roundHalfEven (x : ℚ) : ⌊x⌋ ≤ roundHalfEven x := by
  rcases roundHalfEven_eq_floor_or x with h | h <;> omega

theorem roundHalfEven_le_ceil (x : ℚ) : roundHalfEven x ≤ ⌈x⌉ := by
  rcases roundHalfEven_eq_floor_or x with h | h
  · rw [h]; exact Int.floor_le_ceil x
  · rw [h]
    have hfrac : ¬ (x - ⌊x⌋ < 1/2) := by
      intro hc
      unfold roundHalfEven at h
      rw [if_pos hc] at h
      omega
    have hlt : (⌊x⌋ : ℚ) < x := by
      have : (0 : ℚ) < x - ⌊x⌋ := by
        have : (1:ℚ)/2 ≤ x - ⌊x⌋ := le_of_not_lt hfrac
        linarith
      linarith
    have : (⌊x⌋ : ℚ) < (⌈x⌉ : ℚ) := lt_of_lt_of_le hlt (Int.le_ceil x)
    have : ⌊x⌋ < ⌈x⌉ := by exact_mod_cast this
    omega

theorem roundHalfEven_nonneg {x : ℚ} (hx : 0 ≤ x) : 0 ≤ roundHalfEven x := by
  have := floor_le_roundHalfEven x
  have h0 : (0 : ℤ) ≤ ⌊x⌋ := Int.floor_nonneg.mpr hx
  omega

theorem roundHalfEven_le_of_le {x : ℚ} {n : ℤ} (h : x ≤ (n : ℚ)) :
    roundHalfEven x ≤ n :=
  le_trans (roundHalfEven_le_ceil x) (Int.ceil_le.mpr h)

theorem roundTo_nonneg {x : ℚ} (d : ℕ) (hx : 0 ≤ x) : 0 ≤ roundTo d x := by
  unfold roundTo
  apply div_nonneg _ (by positivity)
  exact_mod_cast roundHalfEven_nonneg (by positivity)

/-! ## Data model

A `Txn` is one row of the merged transactions table (`load_merged`), with the
columns the profile builder reads: `game_date`, `stand` (the `Location`
column), `Item`, `category_norm`, `Qty`, `mins_from_puck_drop`,
`time_window`.  Game dates are abstract `ℕ` keys.  Quantities are sale
counts (`ℕ`).  A `Game` is one row of the enriched games table with the
columns the forecasting core reads; `attendance` is nullable ("until
scanned", spec §3), a pandas `NaN` being `none`. -/

structure Txn where
  game_date : ℕ
  stand : String
  item : String
  category : String
  qty : ℕ
  mins_from_puck_drop : ℚ
  time_window : ℤ
deriving DecidableEq, Repr

structure Game where
  game_date : ℕ
  archetype : String
  attendance : Option ℚ
deriving DecidableEq, Repr

/-- `games.set_index("game_date")["archetype"].to_dict()` followed by
`.map(...).fillna("mixed")`: the archetype joined onto a transaction.
Games are keyed uniquely by date (spec §3), so first-match lookup agrees
with the pandas dict. -/
def txnArchetype (games : List Game) (t : Txn) : String :=
  ((games.find? fun g => g.game_date == t.game_date).map Game.archetype).getD "mixed"

/-- The `attendance` column joined onto a transaction (`NaN` when the date
has no game, or the game's attendance is itself missing). -/
def txnAttendance (games : List Game) (t : Txn) : Option ℚ :=
  (games.find? fun g => g.game_date == t.game_date).bind Game.attendance

/-- `games.groupby("archetype")["game_date"].nunique()`: total distinct game
dates per archetype — the denominator of every demand curve. -/
def gamesPerArch (games : List Game) (arch : String) : ℕ :=
  (((games.filter fun g => g.archetype == arch).map Game.game_date).dedup).length

/-! ## Historical Profile Builder (`build_profiles_from_data`)

The source builds three demand-curve tables with an identical
`groupby(...).agg(total_qty, game_count)` / `avg_qty = round(total_qty /
arch_game_count, 2)` block, differing only in the grouping entity (stand,
item, or stand × item).  `curveRows` embeds that shared block once,
parametrised by the entity projection; `stand_curves`, `item_curves` and
`stand_item_curves` instantiate it exactly as the three source blocks do. -/

/-- One row of a demand-curve table: the groupby key `(archetype, entity,
time_window)` together with the aggregate columns `total_qty`,
`game_count`, `arch_game_count` and `avg_qty`. -/
structure CurveRow (E : Type) where
  archetype : String
  entity : E
  time_window : ℤ
  total_qty : ℕ
  game_count : ℕ
  arch_game_count : ℕ
  avg_qty : ℚ
deriving DecidableEq, Repr

/-- The grouping key of a transaction for a given entity projection. -/
def curveKey {E : Type} (ent : Txn → E) (games : List Game) (t : Txn) :
    String × E × ℤ :=
  (txnArchetype games t, ent t, t.time_window)

/-- Total quantity of the group `(arch, e, w)`: the sum of `Qty` over the
merged transactions falling in that group. -/
def groupTotalQty {E : Type} [DecidableEq E] (ent : Txn → E)
    (txns : List Txn) (games : List Game) (a : String) (e : E) (w : ℤ) : ℕ :=
  ((txns.filter fun t => decide (curveKey ent games t = (a, e, w))).map Txn.qty).sum

/-- Distinct contributing game dates of the group (the `game_count` column —
computed by the source but *not* used as the `avg_qty` denominator). -/
def groupGameCount {E : Type} [DecidableEq E] (ent : Txn → E)
    (txns : List Txn) (games : List Game) (a : String) (e : E) (w : ℤ) : ℕ :=
  (((txns.filter fun t => decide (curveKey ent games t = (a, e, w))).map
      Txn.game_date).dedup).length

/-- The shared `groupby(...).agg(...)` + `avg_qty` block: one row per
distinct group key occurring in the data, with
`avg_qty = (total_qty / arch_game_count).round(2)`. -/
def curveRows {E : Type} [DecidableEq E] (ent : Txn → E)
    (txns : List Txn) (games : List Game) : List (CurveRow E) :=
  ((txns.map (curveKey ent games)).dedup).map fun k =>
    { archetype := k.1
      entity := k.2.1
      time_window := k.2.2
      total_qty := groupTotalQty ent txns games k.1 k.2.1 k.2.2
      game_count := groupGameCount ent txns games k.1 k.2.1 k.2.2
      arch_game_count := gamesPerArch games k.1
      avg_qty := roundTo 2 ((groupTotalQty ent txns games k.1 k.2.1 k.2.2 : ℚ) /
        (gamesPerArch games k.1 : ℚ)) }

/-- `stand_curves`: grouped by `(archetype, stand, time_window)`. -/
def stand_curves (txns : List Txn) (games : List Game) : List (CurveRow String) :=
  curveRows Txn.stand txns games

/-- `item_curves`: grouped by `(archetype, Item, time_window)`. -/
def item_curves (txns : List Txn) (games : List Game) : List (CurveRow String) :=
  curveRows Txn.item txns games

/-- `stand_item_curves`: grouped by `(archetype, stand, Item, time_window)`. -/
def stand_item_curves (txns : List Txn) (games : List Game) :
    List (CurveRow (String × String)) :=
  curveRows (fun t => (t.stand, t.item)) txns games

/-- Every downstream consumer reads a curve as "the `avg_qty` of the row
with this key, or `0` when no row exists" (absent groupby rows are zero
demand; the drift detector's forecast dicts use `.get(key, 0)` likewise). -/
def lookupAvgQty {E : Type} [DecidableEq E] (curves : List (CurveRow E))
    (a : String) (e : E) (w : ℤ) : ℚ :=
  ((curves.find? fun r =>
      decide (r.archetype = a ∧ r.entity = e ∧ r.time_window = w)).map
    CurveRow.avg_qty).getD 0

/-! ### Per-capita curves (`percap_curves`)

Source (profiles.py lines 126–139): group the merged table by
`(archetype, stand, time_window)` and apply
`g["Qty"].sum() / g["attendance"].iloc[0]` when the *first* row's
attendance is truthy and positive, else `0`; the subsequent
`groupby(...).mean()` re-groups by the same three keys, so it averages
singleton groups and is the identity on the values. -/

/-- `qty_per_cap` for the group `(a, s, w)`: the group's total quantity
over **all** of its games, divided by the attendance attached to the
group's first transaction (in original row order); `0` when that
attendance is missing, zero or negative (Python truthiness plus the
`> 0` guard). -/
def percapValue (txns : List Txn) (games : List Game)
    (a s : String) (w : ℤ) : ℚ :=
  let g := txns.filter fun t =>
    decide (txnArchetype games t = a ∧ t.stand = s ∧ t.time_window = w)
  match g.head? with
  | none => 0
  | some t0 =>
      match txnAttendance games t0 with
      | none => 0
      | some att => if 0 < att then ((g.map Txn.qty).sum : ℚ) / att else 0

/-- What the spec says the per-capita curve is (spec §4.1): divide **each
game's** window quantity by **that game's** attendance, then average over
the contributing games, skipping games with zero or missing attendance
from this curve only. -/
def percapPerGameSpec (txns : List Txn) (games : List Game)
    (a s : String) (w : ℤ) : ℚ :=
  let dates := ((txns.filter fun t =>
    decide (txnArchetype games t = a ∧ t.stand = s ∧ t.time_window = w)).map
      Txn.game_date).dedup
  let contrib := dates.filterMap fun d =>
    match (games.find? fun g => g.game_date == d).bind Game.attendance with
    | none => none
    | some att =>
        if 0 < att then
          some ((((txns.filter fun t =>
            decide (txnArchetype games t = a ∧ t.stand = s ∧
              t.time_window = w ∧ t.game_date = d)).map Txn.qty).sum : ℚ) / att)
        else none
  if contrib.length = 0 then 0 else contrib.sum / contrib.length

/-! ## Configuration constants (`config.py`) -/

/-- `STAND_SHORT`: full stand name → display short name. -/
def STAND_SHORT : List (String × String) :=
  [("SOFMC Island Canteen", "Island Canteen"),
   ("SOFMC ReMax Fan Deck", "ReMax Fan Deck"),
   ("SOFMC TacoTacoTaco", "TacoTacoTaco"),
   ("SOFMC Portable Stations", "Portable Stations"),
   ("SOFMC Island Slice", "Island Slice")]

/-- `STAND_SHORT.get(stand, stand)`. -/
def standShortOf (s : String) : String :=
  ((STAND_SHORT.find? fun kv => kv.1 == s).map Prod.snd).getD s

/-- The `PERISHABILITY["shelf_stable"]` item list. -/
def shelfStableItems : List String :=
  ["Candy", "Chips", "Gummies", "Cookies & Brownies", "Bottle Pop",
   "Water", "Cans of Beer", "Cider & Coolers", "Wine by the Glass SOFMC"]

/-- The `PERISHABILITY["medium_hold"]` item list. -/
def mediumHoldItems : List String :=
  ["Popcorn", "Hot Dog", "Dogs", "Pretzel", "Churro", "Cotton Candy",
   "Hot Drinks", "Non-Alcoholic Beverages", "Draught Beer",
   "Coffee & Baileys", "Tequila Slushy", "Virgin Slushy"]

/-- The `PERISHABILITY["short_life"]` item list. -/
def shortLifeItems : List String :=
  ["Fries", "Sweet Potato Fries", "Tacos", "Pizza Slice", "Chicken Tenders",
   "Burgers", "Crispy Chicken Burger", "Panini", "Jalapeno Poppers", "Paletas"]

/-- `ITEM_PERISHABILITY` (the inverted `PERISHABILITY` map; the three tier
lists are disjoint, so iteration order is immaterial). -/
def ITEM_PERISHABILITY (item : String) : Option String :=
  if item ∈ shelfStableItems then some "shelf_stable"
  else if item ∈ mediumHoldItems then some "medium_hold"
  else if item ∈ shortLifeItems then some "short_life"
  else none

/-- `df[item_col].map(ITEM_PERISHABILITY).fillna("medium_hold")`. -/
def perishabilityOf (item : String) : String :=
  (ITEM_PERISHABILITY item).getD "medium_hold"

/-- `PREP_TARGET`: fraction of forecast actually prepped, per tier.  The
argument is always one of the three tier names; the `0` default is the
unreachable out-of-dict case. -/
def PREP_TARGET (tier : String) : ℚ :=
  if tier = "shelf_stable" then 0.95
  else if tier = "medium_hold" then 0.85
  else if tier = "short_life" then 0.75
  else 0

def DRIFT_VOLUME_THRESHOLD : ℚ := 0.15
def DRIFT_MIN_SAMPLES : ℤ := 5

/-! ## Forecast Generator (`forecast.py`) -/

/-- The argument list of `generate_forecast` (and of `derive_archetype`,
which receives the same game context). -/
structure FcArgs where
  attendance : ℤ
  puck_drop_hour : ℤ
  is_playoff : Bool
  is_promo : Bool
  promo_type : String
  temp_mean : ℚ
  day_of_week : String
deriving DecidableEq, Repr

/-- `derive_archetype`: deterministic decision list, first match wins. -/
def derive_archetype (attendance : ℤ) (puck_drop_hour : ℤ)
    (is_playoff : Bool) (_is_promo : Bool) (temp_mean : ℚ)
    (day_of_week : String) : String :=
  if is_playoff then "beer_crowd"
  else if attendance ≥ 3500 ∧ puck_drop_hour ≥ 19 ∧
      (day_of_week = "Fri" ∨ day_of_week = "Sat") then "beer_crowd"
  else if puck_drop_hour < 17 then "family"
  else if temp_mean < 3 ∧ (day_of_week = "Sun" ∨ day_of_week = "Sat") then "family"
  else "mixed"

/-- `derive_archetype` applied to a `generate_forecast` argument bundle. -/
def archOf (a : FcArgs) : String :=
  derive_archetype a.attendance a.puck_drop_hour a.is_playoff a.is_promo
    a.temp_mean a.day_of_week

/-- `arch_games["attendance"].mean()` with the `arch_games.empty` fallback
to all games; pandas `mean` skips missing values and is `NaN` (`none`) when
nothing remains. -/
def refAttendance (games : List Game) (arch : String) : Option ℚ :=
  let ag := games.filter fun g => g.archetype == arch
  let ag := if ag.isEmpty then games else ag
  let vals := ag.filterMap Game.attendance
  if vals.isEmpty then none else some (vals.sum / vals.length)

/-- `scale = attendance / ref_attendance if ref_attendance > 0 else 1.0`
(`NaN > 0` is false in Python, so a missing mean also yields `1.0`). -/
def scaleFactor (games : List Game) (arch : String) (attendance : ℤ) : ℚ :=
  match refAttendance games arch with
  | some r => if 0 < r then (attendance : ℚ) / r else 1
  | none => 1

/-- `beer_factor = clamp(1 + 0.03 * (temp_mean - 8), 0.7, 1.5)`. -/
def beerFactor (temp_mean : ℚ) : ℚ :=
  max 0.7 (min 1.5 (1 + (temp_mean - 8) * 0.03))

/-- Archetype curve selection with fallback: rows of the derived archetype,
or the `mixed` rows when the archetype has none. -/
def selectCurve {E : Type} (curves : List (CurveRow E)) (arch : String) :
    List (CurveRow E) :=
  let c := curves.filter fun r => r.archetype == arch
  if c.isEmpty then curves.filter fun r => r.archetype == "mixed" else c

/-- Python's `"dog" in s`. -/
def strContains (s pat : String) : Bool := 2 ≤ (s.splitOn pat).length

/-- Beer items of the temperature adjustment (`ic["Item"].isin([...])`). -/
def isBeerItem (item : String) : Bool :=
  item == "Draught Beer" || item == "Cans of Beer"

/-- Hot-beverage items of the inverse temperature adjustment. -/
def isHotItem (item : String) : Bool :=
  item == "Hot Drinks" || item == "Coffee & Baileys"

/-- Hot-dog-family items of the promo override. -/
def isDogItem (item : String) : Bool :=
  item == "Hot Dog" || item == "Dogs"

/-- The item-level adjustment block of `generate_forecast`
(forecast.py lines 90–115): temperature factor on beer items, inverse on
hot drinks, 2.5× hot-dog promo override, flat 1.15× playoff boost —
applied, in that order, to an item's already-scaled-and-rounded expected
quantity `e`. -/
def icAdjust (a : FcArgs) (item : String) (e : ℚ) : ℚ :=
  let bf := beerFactor a.temp_mean
  let e := if isBeerItem item then e * bf else e
  let e := if isHotItem item then e * (1 / bf) else e
  let e := if a.is_promo ∧ a.promo_type ≠ "" ∧
      strContains a.promo_type.toLower "dog" ∧ isDogItem item then e * 2.5 else e
  if a.is_playoff then e * 1.15 else e

/-- The stand-item-level "Apply same adjustments" block
(forecast.py lines 144–153), embedded separately from its own code. -/
def siAdjust (a : FcArgs) (item : String) (e : ℚ) : ℚ :=
  let bf := beerFactor a.temp_mean
  let e := if isBeerItem item then e * bf else e
  let e := if isHotItem item then e * (1 / bf) else e
  let e := if a.is_promo ∧ a.promo_type ≠ "" ∧
      strContains (a.promo_type.toLower) "dog" ∧ isDogItem item then e * 2.5 else e
  if a.is_playoff then e * 1.15 else e

/-- `_apply_prep_target`'s `prep_qty` column:
`round(expected_qty * PREP_TARGET[tier])`. -/
def apply_prep_target (expected_qty : ℤ) (item : String) : ℤ :=
  roundHalfEven ((expected_qty : ℚ) * PREP_TARGET (perishabilityOf item))

/-- The profiles bundle returned by `build_profiles_from_data` (the
`category_mix` table is built by the source but consumed by no component
under verification, and is omitted).  `stand_item_curves` is read back with
`profiles.get("stand_item_curves")`, hence the `Option`. -/
structure ProfileSet where
  stand_curves : List (CurveRow String)
  item_curves : List (CurveRow String)
  stand_item_curves : Option (List (CurveRow (String × String)))
  percap_curves : List (String × String × ℤ × ℚ)
  games : List Game

/-- `build_profiles_from_data merged games`. -/
def build_profiles_from_data (txns : List Txn) (games : List Game) : ProfileSet where
  stand_curves := stand_curves txns games
  item_curves := item_curves txns games
  stand_item_curves := some (stand_item_curves txns games)
  percap_curves :=
    ((txns.map fun t => (txnArchetype games t, t.stand, t.time_window)).dedup).map
      fun k => (k.1, k.2.1, k.2.2, percapValue txns games k.1 k.2.1 k.2.2)
  games := games

structure StandFcRow where
  stand : String
  time_window : ℤ
  expected_qty : ℤ
deriving DecidableEq, Repr

structure ItemFcRow where
  item : String
  time_window : ℤ
  expected_qty : ℤ
  prep_qty : ℤ
  perishability : String
deriving DecidableEq, Repr

structure StandItemFcRow where
  stand : String
  item : String
  time_window : ℤ
  expected_qty : ℤ
  prep_qty : ℤ
  perishability : String
deriving DecidableEq, Repr

/-- The dict returned by `generate_forecast`. -/
structure Forecast where
  stand_forecast : List StandFcRow
  item_forecast : List ItemFcRow
  stand_item_forecast : Option (List StandItemFcRow)
  archetype : String
  attendance : ℤ
  scale_factor : ℚ
  beer_factor : ℚ

/-- The stand-level expected quantities *before any rounding*:
`sc["avg_qty"] * scale` (forecast.py line 81's right-hand side, prior to
its `.round(1)`), one triple `(stand, time_window, value)` per selected
curve row.  Used to state attendance-linearity "ignoring rounding". -/
def standRowsScaled (p : ProfileSet) (a : FcArgs) : List (String × ℤ × ℚ) :=
  (selectCurve p.stand_curves (archOf a)).map fun r =>
    (r.entity, r.time_window, r.avg_qty * scaleFactor p.games (archOf a) a.attendance)

/-- `generate_forecast(attendance, puck_drop_hour, is_playoff, is_promo,
promo_type, temp_mean, day_of_week, profiles)`. -/
def generate_forecast (a : FcArgs) (p : ProfileSet) : Forecast :=
  let arch := archOf a
  let scale := scaleFactor p.games arch a.attendance
  let sc := ((standRowsScaled p a).map fun x =>
      StandFcRow.mk x.1 x.2.1 (roundHalfEven (roundTo 1 x.2.2))).filter
    fun r => -90 ≤ r.time_window ∧ r.time_window ≤ 120
  let ic := ((selectCurve p.item_curves arch).map fun r =>
      let eq := roundHalfEven (icAdjust a r.entity (roundTo 1 (r.avg_qty * scale)))
      ItemFcRow.mk r.entity r.time_window eq (apply_prep_target eq r.entity)
        (perishabilityOf r.entity)).filter
    fun r => -90 ≤ r.time_window ∧ r.time_window ≤ 120
  let si := p.stand_item_curves.map fun curves =>
    ((selectCurve curves arch).map fun r =>
      let eq := roundHalfEven (siAdjust a r.entity.2 (roundTo 1 (r.avg_qty * scale)))
      StandItemFcRow.mk r.entity.1 r.entity.2 r.time_window eq
        (apply_prep_target eq r.entity.2) (perishabilityOf r.entity.2)).filter
    fun r => -90 ≤ r.time_window ∧ r.time_window ≤ 120
  { stand_forecast := sc
    item_forecast := ic
    stand_item_forecast := si
    archetype := arch
    attendance := a.attendance
    scale_factor := roundTo 3 scale
    beer_factor := roundTo 3 (beerFactor a.temp_mean) }

/-! ## Drift Detector (`drift.py`)

The detector's mutable accumulators (`_actual_by_*`, `_event_count_by_window`)
are all written only by `ingest_event`, which increments them by one event's
quantity; the state is therefore represented by the list of ingested events,
each accumulator being the corresponding filtered sum/count over that list.
`check_drift` appends the report it returns to `_drift_history` and adds the
window's forecast total to `_cumulative_forecast`; that mutation is the
separate step `after_check`. -/

/-- A `GameEvent` as consumed by `ingest_event` (presentation-only fields
`timestamp`, `price_point`, `mins_from_puck_drop` omitted). -/
structure GameEvent where
  stand : String
  item : String
  category : String
  qty : ℤ
  time_window : ℤ
deriving DecidableEq, Repr

/-- A `DriftSignal` (the free-text `detail` field is presentation-only and
omitted). -/
structure DriftSignal where
  drift_type : String
  scope : String
  magnitude : ℚ
  direction : String
  time_window : ℤ
deriving DecidableEq, Repr

/-- `DriftSignal.severity` (the computed property). -/
def severity (s : DriftSignal) : String :=
  if 0.40 ≤ |s.magnitude| then "critical"
  else if 0.25 ≤ |s.magnitude| then "warning"
  else "info"

/-- A stored drift value: a float that is either finite or `float("inf")`
(written into `stand_drifts` for an untracked stand). -/
inductive DriftVal
  | fin (q : ℚ)
  | inf
deriving DecidableEq, Repr

/-- `abs` of a stored drift value, with `|inf| = ⊤`. -/
def dAbs : DriftVal → WithTop ℚ
  | .fin q => ((|q| : ℚ) : WithTop ℚ)
  | .inf => ⊤

structure DriftReport where
  time_window : ℤ
  signals : List DriftSignal
  overall_volume_drift : ℚ
  stand_drifts : List (String × DriftVal)
  item_drifts : List (String × ℚ)
  category_mix_drift : List (String × ℚ)
deriving DecidableEq, Repr

/-- `DriftReport.has_significant_drift`. -/
def has_significant_drift (r : DriftReport) : Prop :=
  ∃ s ∈ r.signals, severity s = "warning" ∨ severity s = "critical"

structure Detector where
  fc_stand : List ((String × ℤ) × ℤ)
  fc_item : List ((String × ℤ) × ℤ)
  fc_stand_item : List ((String × String × ℤ) × ℤ)
  events : List GameEvent
  cumulative_forecast : ℤ
  history : List DriftReport

/-- `DriftDetector(forecast)`: build the forecast lookup dicts from the
forecast tables and start with empty accumulators. -/
def mkDetector (f : Forecast) : Detector where
  fc_stand := f.stand_forecast.map fun r => ((r.stand, r.time_window), r.expected_qty)
  fc_item := f.item_forecast.map fun r => ((r.item, r.time_window), r.expected_qty)
  fc_stand_item := ((f.stand_item_forecast.getD []).map fun r =>
    ((r.stand, r.item, r.time_window), r.expected_qty))
  events := []
  cumulative_forecast := 0
  history := []

/-- `ingest_event`: O(1) accumulation = appending the event. -/
def ingest_event (d : Detector) (e : GameEvent) : Detector :=
  { d with events := d.events ++ [e] }

def actual_by_window (d : Detector) (w : ℤ) : ℤ :=
  ((d.events.filter fun e => e.time_window == w).map GameEvent.qty).sum

def event_count_by_window (d : Detector) (w : ℤ) : ℕ :=
  (d.events.filter fun e => e.time_window == w).length

def actual_by_stand_window (d : Detector) (s : String) (w : ℤ) : ℤ :=
  ((d.events.filter fun e => e.stand == s && e.time_window == w).map
    GameEvent.qty).sum

def actual_by_item_window (d : Detector) (i : String) (w : ℤ) : ℤ :=
  ((d.events.filter fun e => e.item == i && e.time_window == w).map
    GameEvent.qty).sum

def actual_by_category_window (d : Detector) (c : String) (w : ℤ) : ℤ :=
  ((d.events.filter fun e => e.category == c && e.time_window == w).map
    GameEvent.qty).sum

/-- `sum(v for (s, tw), v in self._fc_stand.items() if tw == time_window)`. -/
def fcStandTotal (d : Detector) (w : ℤ) : ℤ :=
  ((d.fc_stand.filter fun kv => kv.1.2 == w).map Prod.snd).sum

/-- `self._fc_stand.get((stand, time_window), 0)`. -/
def fcStandGet (d : Detector) (s : String) (w : ℤ) : ℤ :=
  ((d.fc_stand.find? fun kv => kv.1 == (s, w)).map Prod.snd).getD 0

/-- `self._fc_item.get((item, time_window), 0)`. -/
def fcItemGet (d : Detector) (i : String) (w : ℤ) : ℤ :=
  ((d.fc_item.find? fun kv => kv.1 == (i, w)).map Prod.snd).getD 0

/-- `stands_this_window`: stands holding a key for this window in
`_actual_by_stand_window`, i.e. stands of the events ingested for it. -/
def standsThisWindow (d : Detector) (w : ℤ) : List String :=
  ((d.events.filter fun e => e.time_window == w).map GameEvent.stand).dedup

def itemsThisWindow (d : Detector) (w : ℤ) : List String :=
  ((d.events.filter fun e => e.time_window == w).map GameEvent.item).dedup

def catsThisWindow (d : Detector) (w : ℤ) : List String :=
  ((d.events.filter fun e => e.time_window == w).map GameEvent.category).dedup

/-- `vol_drift = (actual_total - fc_total) / fc_total` for a window (the
expression guarded by `fc_total > 0` in the source). -/
def volDrift (d : Detector) (w : ℤ) : ℚ :=
  ((actual_by_window d w - fcStandTotal d w : ℤ) : ℚ) / (fcStandTotal d w : ℚ)

/-- Per-stand `drift = (actual - fc) / fc` (guarded by `fc > 0`). -/
def standDriftValue (d : Detector) (w : ℤ) (s : String) : ℚ :=
  ((actual_by_stand_window d s w - fcStandGet d s w : ℤ) : ℚ) / (fcStandGet d s w : ℚ)

/-- Per-item `drift = (actual - fc) / fc` (guarded by `fc > 0`). -/
def itemDriftValue (d : Detector) (w : ℤ) (i : String) : ℚ :=
  ((actual_by_item_window d i w - fcItemGet d i w : ℤ) : ℚ) / (fcItemGet d i w : ℚ)

/-- The overall-volume block of `check_drift` (drift.py lines 132–151):
`(signals emitted, value stored in overall_volume_drift)`.  Both gates —
positive stand-forecast total and the minimum sample count — guard the whole
block; the report keeps its `0.0` default otherwise. -/
def overallVolumeSignals (d : Detector) (w : ℤ) : List DriftSignal × ℚ :=
  if 0 < fcStandTotal d w ∧ DRIFT_MIN_SAMPLES ≤ (event_count_by_window d w : ℤ) then
    (if DRIFT_VOLUME_THRESHOLD ≤ |volDrift d w| then
      [⟨"volume", "overall", volDrift d w,
        if 0 < volDrift d w then "above" else "below", w⟩]
    else [], volDrift d w)
  else ([], 0)

/-- The `stand_drifts` entry the per-stand loop writes for one stand:
`(actual − fc) / fc` when the stand has a positive forecast, `float("inf")`
when it has none but its actual exceeds `DRIFT_MIN_SAMPLES`, nothing
otherwise. -/
def standDriftEntry (d : Detector) (w : ℤ) (s : String) :
    Option (String × DriftVal) :=
  if 0 < fcStandGet d s w then some (s, .fin (standDriftValue d w s))
  else if DRIFT_MIN_SAMPLES < actual_by_stand_window d s w then some (s, .inf)
  else none

/-- The signals the per-stand loop emits for one stand. -/
def standSignalsFor (d : Detector) (w : ℤ) (s : String) : List DriftSignal :=
  if 0 < fcStandGet d s w then
    if DRIFT_VOLUME_THRESHOLD ≤ |standDriftValue d w s| then
      [⟨"volume", standShortOf s, standDriftValue d w s,
        if 0 < standDriftValue d w s then "above" else "below", w⟩]
    else []
  else if DRIFT_MIN_SAMPLES < actual_by_stand_window d s w then
    [⟨"volume", standShortOf s, 1, "above", w⟩]
  else []

/-- The `item_drifts` entry for one item (recorded only under a positive
item forecast). -/
def itemDriftEntry (d : Detector) (w : ℤ) (i : String) : Option (String × ℚ) :=
  if 0 < fcItemGet d i w then some (i, itemDriftValue d w i) else none

/-- The "mix" signals for one item (threshold `0.30`, "higher threshold for
items (more noisy)"). -/
def itemSignalsFor (d : Detector) (w : ℤ) (i : String) : List DriftSignal :=
  if 0 < fcItemGet d i w then
    if (0.30 : ℚ) ≤ |itemDriftValue d w i| then
      [⟨"mix", i, itemDriftValue d w i,
        if 0 < itemDriftValue d w i then "above" else "below", w⟩]
    else []
  else []

/-- The category-mix block: actual share per category, gated on the window's
category total exceeding `DRIFT_MIN_SAMPLES`. -/
def categoryMixDrifts (d : Detector) (w : ℤ) : List (String × ℚ) :=
  let cats := catsThisWindow d w
  let total := (cats.map fun c => actual_by_category_window d c w).sum
  if DRIFT_MIN_SAMPLES < total then
    cats.map fun c => (c, (actual_by_category_window d c w : ℚ) / (total : ℚ))
  else []

/-- `check_drift(time_window)`: the returned `DriftReport`, with signals
sorted by descending absolute magnitude. -/
def check_drift (d : Detector) (w : ℤ) : DriftReport where
  time_window := w
  signals :=
    List.insertionSort (fun s t => |t.magnitude| ≤ |s.magnitude|)
      ((overallVolumeSignals d w).1 ++
        (standsThisWindow d w).flatMap (standSignalsFor d w) ++
        (itemsThisWindow d w).flatMap (itemSignalsFor d w))
  overall_volume_drift := (overallVolumeSignals d w).2
  stand_drifts := (standsThisWindow d w).filterMap (standDriftEntry d w)
  item_drifts := (itemsThisWindow d w).filterMap (itemDriftEntry d w)
  category_mix_drift := categoryMixDrifts d w

/-- The state mutation `check_drift` performs besides returning the report:
append to `_drift_history`, add the window's forecast total to
`_cumulative_forecast`. -/
def after_check (d : Detector) (w : ℤ) : Detector :=
  { d with
    cumulative_forecast := d.cumulative_forecast + fcStandTotal d w
    history := d.history ++ [check_drift d w] }

def cumulative_actual (d : Detector) : ℤ := (d.events.map GameEvent.qty).sum

/-- `cumulative_drift()`. -/
def cumulative_drift (d : Detector) : ℚ :=
  if d.cumulative_forecast = 0 then 0
  else ((cumulative_actual d - d.cumulative_forecast : ℤ) : ℚ) /
    (d.cumulative_forecast : ℚ)

/-! ## Traffic-Light Monitor (`traffic_light.py`) -/

inductive Status
  | green
  | yellow
  | red
deriving DecidableEq, Repr

def GREEN_THRESHOLD : ℚ := 0.15
def YELLOW_THRESHOLD : ℚ := 0.30

/-- `classify_status(drift)`.  The argument is a stored drift value, which
for a stand can be `float("inf")` (Python's `abs` and comparisons handle it;
`dAbs` mirrors them with `⊤`). -/
def classify_status (drift : DriftVal) : Status :=
  if dAbs drift ≤ (GREEN_THRESHOLD : WithTop ℚ) then .green
  else if dAbs drift ≤ (YELLOW_THRESHOLD : WithTop ℚ) then .yellow
  else .red

/-- The sort priority used by `update`: `{RED: 0, YELLOW: 1, GREEN: 2}`. -/
def statusPriority : Status → ℕ
  | .red => 0
  | .yellow => 1
  | .green => 2

structure StandStatus where
  stand : String
  status : Status
  drift_pct : DriftVal
  forecast_qty : ℤ
  actual_qty : ℤ
  trend : String
deriving DecidableEq, Repr

structure OverallStatus where
  time_window : ℤ
  overall_status : Status
  overall_drift : ℚ
  stand_statuses : List StandStatus
  cumulative_drift : ℚ
deriving DecidableEq, Repr

/-- The sort order of `stand_statuses.sort(key=lambda s: (priority[s.status],
-abs(s.drift_pct)))`: ascending priority, and descending absolute drift
within equal priority. -/
def standStatusLe (x y : StandStatus) : Prop :=
  statusPriority x.status < statusPriority y.status ∨
    (statusPriority x.status = statusPriority y.status ∧
      dAbs y.drift_pct ≤ dAbs x.drift_pct)

instance : DecidableRel standStatusLe := fun x y => by
  unfold standStatusLe; infer_instance

instance : IsTotal StandStatus standStatusLe := by
  constructor
  intro a b
  rcases lt_trichotomy (statusPriority a.status) (statusPriority b.status) with h | h | h
  · exact Or.inl (Or.inl h)
  · rcases le_total (dAbs b.drift_pct) (dAbs a.drift_pct) with h' | h'
    · exact Or.inl (Or.inr ⟨h, h'⟩)
    · exact Or.inr (Or.inr ⟨h.symm, h'⟩)
  · exact Or.inr (Or.inl h)

instance : IsTrans StandStatus standStatusLe := by
  constructor
  intro a b c hab hbc
  rcases hab with h1 | ⟨h1, h1'⟩ <;> rcases hbc with h2 | ⟨h2, h2'⟩
  · exact Or.inl (h1.trans h2)
  · exact Or.inl (h2 ▸ h1)
  · exact Or.inl (h1 ▸ h2)
  · exact Or.inr ⟨h1.trans h2, le_trans h2' h1'⟩

/-- `abs(d)` on stored drift values, kept as a `DriftVal`. -/
def dAbsVal : DriftVal → DriftVal
  | .fin q => .fin |q|
  | .inf => .inf

/-- `a < b - 0.05` on absolute drift values, with IEEE infinity rules. -/
def dLtSubEps : DriftVal → DriftVal → Bool
  | .fin x, .fin y => decide (x < y - 0.05)
  | .fin _, .inf => true
  | .inf, _ => false

/-- `a > b + 0.05` on absolute drift values, with IEEE infinity rules. -/
def dGtAddEps : DriftVal → DriftVal → Bool
  | .inf, .fin _ => true
  | .fin x, .fin y => decide (y + 0.05 < x)
  | _, .inf => false

/-- `_compute_trend(history)`. -/
def computeTrend (h : List DriftVal) : String :=
  if h.length < 2 then "stable"
  else
    let recent := if 3 ≤ h.length then h.drop (h.length - 3) else h
    if 2 ≤ recent.length then
      let lastA := dAbsVal (recent.getLast?.getD (.fin 0))
      let firstA := dAbsVal (recent.head?.getD (.fin 0))
      if dLtSubEps lastA firstA then "improving"
      else if dGtAddEps lastA firstA then "worsening"
      else "stable"
    else "stable"

/-- The monitor's own state: the detector it reads, and
`_stand_drift_history` (an association list; all drift values ever appended
per stand — `computeTrend` inspects only the last three). -/
structure Monitor where
  detector : Detector
  stand_drift_history : List (String × List DriftVal)

def shistGet (sh : List (String × List DriftVal)) (s : String) : List DriftVal :=
  ((sh.find? fun kv => kv.1 == s).map Prod.snd).getD []

def shistSet (sh : List (String × List DriftVal)) (s : String)
    (v : List DriftVal) : List (String × List DriftVal) :=
  if (sh.find? fun kv => kv.1 == s).isSome then
    sh.map fun kv => if kv.1 == s then (s, v) else kv
  else sh ++ [(s, v)]

/-- `TrafficLightMonitor.update(time_window)`: the returned `OverallStatus`
plus the monitor's post-call state.  `report.stand_drifts` is a Python dict,
so its keys are distinct and each stand's trend is computed from the prior
history extended with exactly its own new drift value, as in the source
loop. -/
def Monitor.update (m : Monitor) (w : ℤ) : OverallStatus × Monitor :=
  match (m.detector.history.reverse).find? (fun r => r.time_window == w) with
  | none =>
      ({ time_window := w
         overall_status := .green
         overall_drift := 0
         stand_statuses := []
         cumulative_drift := cumulative_drift m.detector }, m)
  | some r =>
      let statuses := r.stand_drifts.map fun sd =>
        { stand := sd.1
          status := classify_status sd.2
          drift_pct := sd.2
          forecast_qty := fcStandGet m.detector sd.1 w
          actual_qty := actual_by_stand_window m.detector sd.1 w
          trend := computeTrend (shistGet m.stand_drift_history sd.1 ++ [sd.2])
          : StandStatus }
      ({ time_window := w
         overall_status := classify_status (.fin r.overall_volume_drift)
         overall_drift := r.overall_volume_drift
         stand_statuses := List.insertionSort standStatusLe statuses
         cumulative_drift := cumulative_drift m.detector },
       { m with
         stand_drift_history := r.stand_drifts.foldl
           (fun sh sd => shistSet sh sd.1 (shistGet sh sd.1 ++ [sd.2]))
           m.stand_drift_history })

/-! ## Backtest Validator: prep metrics (`backtest.py` lines 163–173)

`prep_fc` sums `prep_qty` per forecast item, `actual_items` sums `Qty` per
actually-sold item, `prep_comp` is their **outer** merge with missing sides
filled with 0; `covered` counts rows (over the whole outer merge) with
`prep_qty ≥ actual_qty`, while `total_items` counts only rows with
`actual_qty > 0`. -/

/-- Forecast `prep_qty` summed for one item over the item forecast. -/
def prepQtySum (fc : List ItemFcRow) (i : String) : ℤ :=
  ((fc.filter fun r => r.item == i).map ItemFcRow.prep_qty).sum

/-- Actual quantity summed for one item over the held-out game's rows. -/
def actualQtySum (gameTxns : List Txn) (i : String) : ℕ :=
  ((gameTxns.filter fun t => t.item == i).map Txn.qty).sum

/-- The key set of the outer merge: every item appearing on either side. -/
def prepCompKeys (fc : List ItemFcRow) (gameTxns : List Txn) : List String :=
  ((fc.map ItemFcRow.item) ++ (gameTxns.map Txn.item)).dedup

/-- `prep_coverage` as `run_backtest` computes it. -/
def prep_coverage (fc : List ItemFcRow) (gameTxns : List Txn) : ℚ :=
  let keys := prepCompKeys fc gameTxns
  let covered := (keys.filter fun i =>
    (actualQtySum gameTxns i : ℤ) ≤ prepQtySum fc i).length
  let total_items := (keys.filter fun i => 0 < actualQtySum gameTxns i).length
  if 0 < total_items then (covered : ℚ) / (total_items : ℚ) else 1

/-! ## Shared lemmas about the curve tables -/

theorem curveRows_find? {E : Type} [DecidableEq E] (ent : Txn → E)
    (txns : List Txn) (games : List Game) (k : String × E × ℤ) :
    ((curveRows ent txns games).find? fun r =>
        decide (r.archetype = k.1 ∧ r.entity = k.2.1 ∧ r.time_window = k.2.2)) =
      if k ∈ (txns.map (curveKey ent games)).dedup then
        some { archetype := k.1
               entity := k.2.1
               time_window := k.2.2
               total_qty := groupTotalQty ent txns games k.1 k.2.1 k.2.2
               game_count := groupGameCount ent txns games k.1 k.2.1 k.2.2
               arch_game_count := gamesPerArch games k.1
               avg_qty := roundTo 2 ((groupTotalQty ent txns games k.1 k.2.1 k.2.2 : ℚ) /
                 (gamesPerArch games k.1 : ℚ)) }
      else none := by
  unfold curveRows
  rw [List.find?_map]
  generalize (txns.map (curveKey ent games)).dedup = ks
  induction ks with
  | nil => simp
  | cons a l ih =>
    by_cases ha : a = k
    · subst ha
      rw [List.find?_cons_of_pos _ (by simp)]
      simp
    · rw [List.find?_cons_of_neg _ (by
        simp only [Function.comp_apply, decide_eq_true_eq]
        rintro ⟨h1, h2, h3⟩
        exact ha (Prod.ext h1 (Prod.ext h2 h3)))]
      rw [ih, if_congr (List.mem_cons.trans
        (or_iff_right (fun h => ha h.symm))) rfl rfl]

theorem groupTotalQty_eq_zero_of_not_mem {E : Type} [DecidableEq E]
    (ent : Txn → E) (txns : List Txn) (games : List Game)
    {k : String × E × ℤ} (h : k ∉ txns.map (curveKey ent games)) :
    groupTotalQty ent txns games k.1 k.2.1 k.2.2 = 0 := by
  unfold groupTotalQty
  have hnil : txns.filter
      (fun t => decide (curveKey ent games t = (k.1, k.2.1, k.2.2))) = [] := by
    rw [List.filter_eq_nil_iff]
    intro t ht
    simp only [decide_eq_true_eq]
    intro hk
    exact h (List.mem_map.mpr ⟨t, ht, by rw [hk]⟩)
  rw [hnil]
  simp

theorem roundTo_zero (d : ℕ) : roundTo d 0 = 0 := by
  norm_num [roundTo, roundHalfEven]

/-- The key fact behind C1: for every entity projection, the looked-up
average quantity equals the total quantity over all matching merged
transactions divided by the archetype's distinct-game count (rounded to two
decimals as the source does), with absent rows reading as zero. -/
theorem lookupAvgQty_curveRows {E : Type} [DecidableEq E] (ent : Txn → E)
    (txns : List Txn) (games : List Game) (a : String) (e : E) (w : ℤ) :
    lookupAvgQty (curveRows ent txns games) a e w =
      roundTo 2 ((groupTotalQty ent txns games a e w : ℚ) /
        (gamesPerArch games a : ℚ)) := by
  unfold lookupAvgQty
  rw [curveRows_find? ent txns games (a, e, w)]
  by_cases h : (a, e, w) ∈ (txns.map (curveKey ent games)).dedup
  · rw [if_pos h]
    simp
  · rw [if_neg h]
    have h0 : groupTotalQty ent txns games a e w = 0 :=
      groupTotalQty_eq_zero_of_not_mem ent txns games
        (fun hc => h (List.mem_dedup.mpr hc))
    rw [h0]
    simp [roundTo_zero]

/-! ### Evaluation lemmas for `roundHalfEven` on concrete rationals -/

theorem roundHalfEven_of_lt_half {x : ℚ} {n : ℤ} (h1 : (n : ℚ) ≤ x)
    (h2 : x < (n : ℚ) + 1/2) : roundHalfEven x = n := by
  have hf : ⌊x⌋ = n := Int.floor_eq_iff.mpr ⟨h1, by linarith⟩
  unfold roundHalfEven
  rw [hf, if_pos (by linarith)]

theorem roundHalfEven_of_half_lt {x : ℚ} {n : ℤ} (h1 : (n : ℚ) + 1/2 < x)
    (h2 : x < (n : ℚ) + 1) : roundHalfEven x = n + 1 := by
  have hf : ⌊x⌋ = n := Int.floor_eq_iff.mpr ⟨by linarith, by exact_mod_cast h2⟩
  unfold roundHalfEven
  rw [hf, if_neg (by linarith), if_pos (by linarith)]

theorem roundHalfEven_intCast (n : ℤ) : roundHalfEven (n : ℚ) = n :=
  roundHalfEven_of_lt_half (le_refl _) (by linarith)

/-! ## C1 — the avg_qty invariant of the profile builder -/

/-- One transaction of quantity 1, against three `mixed` games: the exact
average is `1/3`, which the source's `.round(2)` stores as `0.33`. -/
def txC1 : List Txn := [⟨1, "A", "X", "Food", 1, 0, 0⟩]

def gmC1 : List Game :=
  [⟨1, "mixed", some 1000⟩, ⟨2, "mixed", some 1000⟩, ⟨3, "mixed", some 1000⟩]

/-- C1 counterexample: `avg_qty` does **not** equal
`total_qty / distinct_game_count` exactly — the source stores
`(total_qty / arch_game_count).round(2)`, so with one unit sold across
three archetype games the stored average is `0.33 ≠ 1/3`. -/
theorem C1_counterexample :
    lookupAvgQty (stand_curves txC1 gmC1) "mixed" "A" 0 ≠
      (groupTotalQty Txn.stand txC1 gmC1 "mixed" "A" 0 : ℚ) /
        (gamesPerArch gmC1 "mixed" : ℚ) := by
  have h1 : groupTotalQty Txn.stand txC1 gmC1 "mixed" "A" 0 = 1 := by decide
  have h2 : gamesPerArch gmC1 "mixed" = 3 := by decide
  have h3 : lookupAvgQty (stand_curves txC1 gmC1) "mixed" "A" 0 =
      roundTo 2 ((1 : ℚ) / 3) := by
    simp only [stand_curves]
    rw [lookupAvgQty_curveRows, h1, h2]
    norm_num
  have h4 : roundTo 2 ((1 : ℚ)/3) = 33/100 := by
    unfold roundTo
    rw [show (1 : ℚ)/3 * 10 ^ 2 = 100/3 by norm_num,
      roundHalfEven_of_lt_half (n := 33) (by norm_num) (by norm_num)]
    norm_num
  rw [h3, h4, h1, h2]
  norm_num

/-- C1 (amended): for every archetype with at least one historical game,
every entity — stand, item, or stand-item pair — and every time window, the
stored `avg_qty` equals the total historical quantity for that entity and
window divided by the archetype's **distinct-game count** (not the count of
games in which the entity had sales), rounded half-even to two decimal
places as the source's `.round(2)` does; and an entity/window with no
matching transactions reads as zero, not undefined. -/
theorem C1_avg_qty (txns : List Txn) (games : List Game) (a : String)
    (_hA : 1 ≤ gamesPerArch games a) (s i : String) (w : ℤ) :
    (lookupAvgQty (stand_curves txns games) a s w =
        roundTo 2 ((groupTotalQty Txn.stand txns games a s w : ℚ) /
          (gamesPerArch games a : ℚ)) ∧
      (groupTotalQty Txn.stand txns games a s w = 0 →
        lookupAvgQty (stand_curves txns games) a s w = 0)) ∧
    (lookupAvgQty (item_curves txns games) a i w =
        roundTo 2 ((groupTotalQty Txn.item txns games a i w : ℚ) /
          (gamesPerArch games a : ℚ)) ∧
      (groupTotalQty Txn.item txns games a i w = 0 →
        lookupAvgQty (item_curves txns games) a i w = 0)) ∧
    (lookupAvgQty (stand_item_curves txns games) a (s, i) w =
        roundTo 2 ((groupTotalQty (fun t => (t.stand, t.item)) txns games a (s, i) w : ℚ) /
          (gamesPerArch games a : ℚ)) ∧
      (groupTotalQty (fun t => (t.stand, t.item)) txns games a (s, i) w = 0 →
        lookupAvgQty (stand_item_curves txns games) a (s, i) w = 0)) := by
  refine ⟨⟨lookupAvgQty_curveRows _ txns games a s w, fun h0 => ?_⟩,
    ⟨lookupAvgQty_curveRows _ txns games a i w, fun h0 => ?_⟩,
    ⟨lookupAvgQty_curveRows _ txns games a (s, i) w, fun h0 => ?_⟩⟩
  all_goals
    simp only [stand_curves, item_curves, stand_item_curves]
    rw [lookupAvgQty_curveRows, h0]
    simp [roundTo_zero]

/-- C1 witness: the amended statement evaluated on `txC1`/`gmC1`
(the sold stand, and the zero-sales case for a stand with no
transactions). -/
theorem C1_witness :
    (1 ≤ gamesPerArch gmC1 "mixed" ∧
      lookupAvgQty (stand_curves txC1 gmC1) "mixed" "A" 0 =
        roundTo 2 ((groupTotalQty Txn.stand txC1 gmC1 "mixed" "A" 0 : ℚ) /
          (gamesPerArch gmC1 "mixed" : ℚ))) ∧
    (groupTotalQty Txn.stand txC1 gmC1 "mixed" "B" 0 = 0 →
      lookupAvgQty (stand_curves txC1 gmC1) "mixed" "B" 0 = 0) :=
  ⟨⟨by decide, (C1_avg_qty txC1 gmC1 "mixed" (by decide) "A" "X" 0).1.1⟩,
    (C1_avg_qty txC1 gmC1 "mixed" (by decide) "B" "X" 0).1.2⟩

/-! ## C7 — per-capita curves -/

/-- Two `mixed` games: date 1 with attendance 100, date 2 with attendance
200, each selling 100 units at stand "A" in window 0.  Per-game per-capita
values are `1.0` and `0.5`, so the spec's curve value is their mean `0.75`;
the source instead divides the two-game total `200` by the first game's
attendance `100`, giving `2.0`. -/
def txC7 : List Txn :=
  [⟨1, "A", "X", "Food", 100, 0, 0⟩, ⟨2, "A", "X", "Food", 100, 0, 0⟩]

def gmC7 : List Game := [⟨1, "mixed", some 100⟩, ⟨2, "mixed", some 200⟩]

/-- C7: at the failing input above, the source's `qty_per_cap` (the whole
group's quantity divided by the first contributing transaction's game
attendance) is `2`, where the spec's per-game-then-average construction
gives `3/4` — the code does not divide each game's quantity by its own
attendance before averaging. -/
theorem C7_code_eval :
    percapValue txC7 gmC7 "mixed" "A" 0 = 2 ∧
      percapPerGameSpec txC7 gmC7 "mixed" "A" 0 = 3/4 := by
  constructor
  · simp [percapValue, txC7, gmC7, txnArchetype, txnAttendance,
      List.filter, List.find?]
    norm_num
  · simp [percapPerGameSpec, txC7, gmC7, txnArchetype, txnAttendance,
      List.filter, List.find?, List.filterMap, List.dedup]
    norm_num

/-! ## C5 — prep quantities never exceed expected quantities -/

theorem curveRows_avg_nonneg {E : Type} [DecidableEq E] {ent : Txn → E}
    {txns : List Txn} {games : List Game} {r : CurveRow E}
    (hr : r ∈ curveRows ent txns games) : 0 ≤ r.avg_qty := by
  unfold curveRows at hr
  obtain ⟨k, _, rfl⟩ := List.mem_map.mp hr
  exact roundTo_nonneg 2 (by positivity)

theorem selectCurve_subset {E : Type} {curves : List (CurveRow E)}
    {arch : String} {r : CurveRow E} (hr : r ∈ selectCurve curves arch) :
    r ∈ curves := by
  unfold selectCurve at hr
  dsimp only at hr
  split at hr <;> exact (List.mem_filter.mp hr).1

theorem scaleFactor_nonneg (games : List Game) (arch : String) {att : ℤ}
    (h : 0 ≤ att) : 0 ≤ scaleFactor games arch att := by
  unfold scaleFactor
  cases hr : refAttendance games arch with
  | none => norm_num
  | some r =>
      dsimp only
      split
      · exact div_nonneg (by exact_mod_cast h) (by linarith)
      · norm_num

theorem beerFactor_pos (t : ℚ) : 0 < beerFactor t :=
  lt_of_lt_of_le (by norm_num) (le_max_left _ _)

theorem ite_mul_nonneg (c : Prop) [Decidable c] {x k : ℚ} (hx : 0 ≤ x)
    (hk : 0 ≤ k) : 0 ≤ if c then x * k else x := by
  split
  · exact mul_nonneg hx hk
  · exact hx

theorem icAdjust_nonneg (a : FcArgs) (item : String) {e : ℚ} (he : 0 ≤ e) :
    0 ≤ icAdjust a item e := by
  have hbf : 0 < beerFactor a.temp_mean := beerFactor_pos _
  have h1 : 0 ≤ (if isBeerItem item then e * beerFactor a.temp_mean else e) :=
    ite_mul_nonneg _ he hbf.le
  have h2 : 0 ≤ (if isHotItem item then
      (if isBeerItem item then e * beerFactor a.temp_mean else e) *
        (1 / beerFactor a.temp_mean)
    else (if isBeerItem item then e * beerFactor a.temp_mean else e)) :=
    ite_mul_nonneg _ h1 (div_nonneg zero_le_one hbf.le)
  have h3 : 0 ≤ (if a.is_promo ∧ a.promo_type ≠ "" ∧
      strContains a.promo_type.toLower "dog" ∧ isDogItem item then
      (if isHotItem item then
        (if isBeerItem item then e * beerFactor a.temp_mean else e) *
          (1 / beerFactor a.temp_mean)
      else (if isBeerItem item then e * beerFactor a.temp_mean else e)) * 2.5
    else (if isHotItem item then
        (if isBeerItem item then e * beerFactor a.temp_mean else e) *
          (1 / beerFactor a.temp_mean)
      else (if isBeerItem item then e * beerFactor a.temp_mean else e))) :=
    ite_mul_nonneg _ h2 (by norm_num)
  exact ite_mul_nonneg _ h3 (by norm_num)

/-- The two adjustment blocks (item-level and stand-item-level) compute the
same function — the source duplicates the code verbatim. -/
theorem siAdjust_eq_icAdjust (a : FcArgs) (item : String) (e : ℚ) :
    siAdjust a item e = icAdjust a item e := rfl

theorem apply_prep_target_le {n : ℤ} (hn : 0 ≤ n) (item : String) :
    apply_prep_target n item ≤ n := by
  unfold apply_prep_target
  apply roundHalfEven_le_of_le
  have ht1 : PREP_TARGET (perishabilityOf item) ≤ 1 := by
    unfold PREP_TARGET
    split_ifs <;> norm_num
  calc (n : ℚ) * PREP_TARGET (perishabilityOf item) ≤ (n : ℚ) * 1 :=
        mul_le_mul_of_nonneg_left ht1 (by exact_mod_cast hn)
    _ = (n : ℚ) := mul_one _

/-- C5: for every item row of every forecast `generate_forecast` produces
from profiles built by `build_profiles_from_data` — item-level and
stand-item-level alike — `prep_qty ≤ expected_qty` (every perishability
tier's prep target is at most 1, and expected quantities are nonnegative
for a nonnegative requested attendance). -/
theorem C5_prep_le_expected (txns : List Txn) (games : List Game)
    (a : FcArgs) (hatt : 0 ≤ a.attendance) :
    (∀ r ∈ (generate_forecast a (build_profiles_from_data txns games)).item_forecast,
        r.prep_qty ≤ r.expected_qty) ∧
    (∀ rows, (generate_forecast a (build_profiles_from_data txns games)).stand_item_forecast
        = some rows → ∀ r ∈ rows, r.prep_qty ≤ r.expected_qty) := by
  have hscale : 0 ≤ scaleFactor games (archOf a) a.attendance :=
    scaleFactor_nonneg games (archOf a) hatt
  constructor
  · intro r hr
    simp only [generate_forecast, build_profiles_from_data] at hr
    obtain ⟨cr, hcr, rfl⟩ := List.mem_map.mp (List.mem_filter.mp hr).1
    dsimp only
    apply apply_prep_target_le
    apply roundHalfEven_nonneg
    apply icAdjust_nonneg
    apply roundTo_nonneg
    exact mul_nonneg (curveRows_avg_nonneg (selectCurve_subset hcr)) hscale
  · intro rows hrows r hr
    simp only [generate_forecast, build_profiles_from_data, Option.map] at hrows
    cases hrows
    obtain ⟨cr, hcr, rfl⟩ := List.mem_map.mp (List.mem_filter.mp hr).1
    dsimp only
    apply apply_prep_target_le
    apply roundHalfEven_nonneg
    rw [siAdjust_eq_icAdjust]
    apply icAdjust_nonneg
    apply roundTo_nonneg
    exact mul_nonneg (curveRows_avg_nonneg (selectCurve_subset hcr)) hscale

/-- Evaluation helper: `roundTo d x = q` once the scaled value's rounding
target is exhibited. -/
theorem roundTo_eq_of (d : ℕ) (x : ℚ) (n : ℤ) (q : ℚ)
    (h1 : (n : ℚ) ≤ x * 10 ^ d) (h2 : x * 10 ^ d < (n : ℚ) + 1/2)
    (h3 : (n : ℚ) / 10 ^ d = q) : roundTo d x = q := by
  unfold roundTo
  rw [roundHalfEven_of_lt_half h1 h2, h3]

/-- A single playoff game of the `beer_crowd` archetype, attendance 1000,
selling 100 units of shelf-stable "Candy" at one stand in window 0.  With
scale factor 1 and `beer_factor` 1, the playoff boost is the only active
adjustment: the item-level and stand-item-level expected quantity is
`round(100 × 1.15) = 115` (prep `round(115 × 0.95) = 109`), while the
stand-level expected quantity stays `100`. -/
def txEx : List Txn := [⟨1, "SOFMC Island Canteen", "Candy", "Snacks", 100, 0, 0⟩]

def gmEx : List Game := [⟨1, "beer_crowd", some 1000⟩]

def argsEx : FcArgs := ⟨1000, 19, true, false, "", 8, "Fri"⟩

/-- C5 witness: the prep-target bound evaluated on the playoff example. -/
theorem C5_witness :
    0 ≤ argsEx.attendance ∧
    ((∀ r ∈ (generate_forecast argsEx (build_profiles_from_data txEx gmEx)).item_forecast,
        r.prep_qty ≤ r.expected_qty) ∧
      (∀ rows, (generate_forecast argsEx
          (build_profiles_from_data txEx gmEx)).stand_item_forecast = some rows →
        ∀ r ∈ rows, r.prep_qty ≤ r.expected_qty)) :=
  ⟨by decide, C5_prep_le_expected txEx gmEx argsEx (by decide)⟩

/-! ## C6 — which levels share the adjustment sequence -/

/-- C6 counterexample: on the playoff example (`txEx`/`gmEx`/`argsEx`), the
one stand sells only the one item, yet the forecast levels disagree: the
item-level and stand-item-level expected quantities carry the 1.15× playoff
boost (`115`) while the stand-level expected quantity does not (`100`) —
the temperature/promo/playoff adjustments and prep targets are *not*
applied at stand level, so the levels are not mutually consistent. -/
theorem C6_counterexample :
    (generate_forecast argsEx (build_profiles_from_data txEx gmEx)).stand_forecast.map
        StandFcRow.expected_qty = [100] ∧
    (generate_forecast argsEx (build_profiles_from_data txEx gmEx)).item_forecast.map
        ItemFcRow.expected_qty = [115] ∧
    (generate_forecast argsEx (build_profiles_from_data txEx gmEx)).stand_item_forecast.map
        (fun rows => rows.map StandItemFcRow.expected_qty) = some [115] := by
  have e1 : roundTo 2 ((100 : ℚ)) = 100 :=
    roundTo_eq_of 2 _ 10000 _ (by norm_num) (by norm_num) (by norm_num)
  have e2 : roundTo 1 ((100 : ℚ)) = 100 :=
    roundTo_eq_of 1 _ 1000 _ (by norm_num) (by norm_num) (by norm_num)
  have e3 : roundHalfEven (100 : ℚ) = 100 :=
    roundHalfEven_of_lt_half (by norm_num) (by norm_num)
  have hbf : beerFactor 8 = 1 := by unfold beerFactor; norm_num
  have e4 : roundHalfEven ((100 : ℚ) * 1.15) = 115 :=
    roundHalfEven_of_lt_half (by norm_num) (by norm_num)
  refine ⟨?_, ?_, ?_⟩ <;>
  simp [generate_forecast, build_profiles_from_data, standRowsScaled, stand_curves,
    item_curves, stand_item_curves, curveRows, selectCurve, archOf, derive_archetype,
    scaleFactor, refAttendance, icAdjust, siAdjust, isBeerItem, isHotItem, isDogItem,
    txEx, gmEx, argsEx, txnArchetype, gamesPerArch, groupTotalQty, groupGameCount,
    curveKey, List.filter, List.find?, List.dedup, hbf, e1, e2, e3, e4]

/-- C6 (amended): the adjustment sequence — scale, temperature factor,
hot-dog promo override, playoff boost, rounding, prep targets, window
filter — is applied identically, with the same factors, at item-level and
stand-item-level: the stand-item forecast is exactly the item-level
pipeline (`icAdjust`, `apply_prep_target`) mapped over the stand-item
curves.  (The stand-level forecast receives only the scale factor, rounding
and the window filter; per `C6_counterexample` it does not share the other
adjustments.) -/
theorem C6_item_standitem_identical (a : FcArgs) (p : ProfileSet)
    (curves : List (CurveRow (String × String)))
    (hc : p.stand_item_curves = some curves) :
    (generate_forecast a p).stand_item_forecast = some
      (((selectCurve curves (archOf a)).map fun r =>
        StandItemFcRow.mk r.entity.1 r.entity.2 r.time_window
          (roundHalfEven (icAdjust a r.entity.2
            (roundTo 1 (r.avg_qty * scaleFactor p.games (archOf a) a.attendance))))
          (apply_prep_target
            (roundHalfEven (icAdjust a r.entity.2
              (roundTo 1 (r.avg_qty * scaleFactor p.games (archOf a) a.attendance))))
            r.entity.2)
          (perishabilityOf r.entity.2)).filter
        fun r => -90 ≤ r.time_window ∧ r.time_window ≤ 120) := by
  simp only [generate_forecast, hc, Option.map]
  rfl

/-- C6 witness: the amended statement on the playoff example's profile
set. -/
theorem C6_witness :
    (build_profiles_from_data txEx gmEx).stand_item_curves =
      some (stand_item_curves txEx gmEx) ∧
    (generate_forecast argsEx (build_profiles_from_data txEx gmEx)).stand_item_forecast
      = some
      (((selectCurve (stand_item_curves txEx gmEx) (archOf argsEx)).map fun r =>
        StandItemFcRow.mk r.entity.1 r.entity.2 r.time_window
          (roundHalfEven (icAdjust argsEx r.entity.2
            (roundTo 1 (r.avg_qty * scaleFactor (build_profiles_from_data txEx gmEx).games
              (archOf argsEx) argsEx.attendance))))
          (apply_prep_target
            (roundHalfEven (icAdjust argsEx r.entity.2
              (roundTo 1 (r.avg_qty * scaleFactor (build_profiles_from_data txEx gmEx).games
                (archOf argsEx) argsEx.attendance))))
            r.entity.2)
          (perishabilityOf r.entity.2)).filter
        fun r => -90 ≤ r.time_window ∧ r.time_window ≤ 120) :=
  ⟨rfl, C6_item_standitem_identical argsEx (build_profiles_from_data txEx gmEx)
    (stand_item_curves txEx gmEx) rfl⟩

/-! ## C4 — linearity of the stand forecast in attendance -/

/-- Historical data giving both archetypes a stand curve: a `beer_crowd`
game (attendance 4000, 10 units) and a `mixed` game (attendance 2000,
3 units), both at stand "A" in window 0.  Requesting attendance 2000 on a
19:00 Friday derives `mixed` (scale 1 against the 2000-mean), but doubling
to 4000 crosses the ≥3500 threshold and derives `beer_crowd` (scale 1
against the 4000-mean) — the stand expected value jumps from 3 to 10, not
to 6. -/
def txC4 : List Txn :=
  [⟨1, "A", "X", "Food", 10, 0, 0⟩, ⟨2, "A", "X", "Food", 3, 0, 0⟩]

def gmC4 : List Game := [⟨1, "beer_crowd", some 4000⟩, ⟨2, "mixed", some 2000⟩]

def argsC4 : FcArgs := ⟨2000, 19, false, false, "", 8, "Fri"⟩

/-- C4 counterexample: doubling the requested attendance does **not** double
the pre-rounding stand-level expected quantities when the doubled
attendance derives a different archetype — here `[("A", 0, 10)]` against
the doubled `[("A", 0, 6)]`. -/
theorem C4_counterexample :
    standRowsScaled (build_profiles_from_data txC4 gmC4)
        { argsC4 with attendance := 2 * argsC4.attendance } ≠
      (standRowsScaled (build_profiles_from_data txC4 gmC4) argsC4).map
        fun x => (x.1, x.2.1, 2 * x.2.2) := by
  have e10 : roundTo 2 ((10 : ℚ)) = 10 :=
    roundTo_eq_of 2 _ 1000 _ (by norm_num) (by norm_num) (by norm_num)
  have e3 : roundTo 2 ((3 : ℚ)) = 3 :=
    roundTo_eq_of 2 _ 300 _ (by norm_num) (by norm_num) (by norm_num)
  have h1 : standRowsScaled (build_profiles_from_data txC4 gmC4)
      { argsC4 with attendance := 2 * argsC4.attendance } = [("A", 0, 10)] := by
    simp [standRowsScaled, build_profiles_from_data, stand_curves, curveRows,
      selectCurve, archOf, derive_archetype, scaleFactor, refAttendance,
      txC4, gmC4, argsC4, txnArchetype, gamesPerArch, groupTotalQty,
      groupGameCount, curveKey, List.filter, List.find?, List.dedup, e10, e3]
  have h2 : standRowsScaled (build_profiles_from_data txC4 gmC4) argsC4 =
      [("A", 0, 3)] := by
    simp [standRowsScaled, build_profiles_from_data, stand_curves, curveRows,
      selectCurve, archOf, derive_archetype, scaleFactor, refAttendance,
      txC4, gmC4, argsC4, txnArchetype, gamesPerArch, groupTotalQty,
      groupGameCount, curveKey, List.filter, List.find?, List.dedup, e10, e3]
  rw [h1, h2]
  intro h
  simp at h
  norm_num at h

/-- C4 (amended): for a fixed profile set and identical non-attendance
inputs, the stand-level expected quantities (before rounding) produced by
`generate_forecast` at attendance `2X` are exactly twice those produced at
attendance `X`, **provided** both attendance values derive the same crowd
archetype and that archetype's historical reference attendance is positive.
(`standRowsScaled` is the stand-level pipeline of `generate_forecast`
before its `.round(1)`/integer rounding and window filter.) -/
theorem C4_scale_linear (p : ProfileSet) (a : FcArgs) (r : ℚ)
    (harch : archOf { a with attendance := 2 * a.attendance } = archOf a)
    (href : refAttendance p.games (archOf a) = some r) (hr : 0 < r) :
    standRowsScaled p { a with attendance := 2 * a.attendance } =
      (standRowsScaled p a).map fun x => (x.1, x.2.1, 2 * x.2.2) := by
  unfold standRowsScaled
  rw [harch, List.map_map]
  apply List.map_congr_left
  intro c _
  have hs : ∀ att : ℤ, scaleFactor p.games (archOf a) att = (att : ℚ) / r := by
    intro att
    unfold scaleFactor
    rw [href]
    exact if_pos hr
  simp only [Function.comp_apply, hs]
  push_cast
  ring_nf

def argsC4w : FcArgs := ⟨1000, 19, false, false, "", 8, "Fri"⟩

/-- C4 witness: attendances 1000 and 2000 both derive `mixed` on the same
profile set, whose `mixed` reference attendance is 2000 > 0; the amended
linearity holds there. -/
theorem C4_witness :
    (archOf { argsC4w with attendance := 2 * argsC4w.attendance } = archOf argsC4w ∧
      refAttendance (build_profiles_from_data txC4 gmC4).games (archOf argsC4w) =
        some 2000 ∧ (0 : ℚ) < 2000) ∧
    standRowsScaled (build_profiles_from_data txC4 gmC4)
        { argsC4w with attendance := 2 * argsC4w.attendance } =
      (standRowsScaled (build_profiles_from_data txC4 gmC4) argsC4w).map
        fun x => (x.1, x.2.1, 2 * x.2.2) :=
  ⟨⟨by decide,
    by simp [refAttendance, build_profiles_from_data, gmC4, archOf, argsC4w,
        derive_archetype, List.filter],
    by norm_num⟩,
   C4_scale_linear (build_profiles_from_data txC4 gmC4) argsC4w 2000
    (by decide)
    (by simp [refAttendance, build_profiles_from_data, gmC4, archOf, argsC4w,
        derive_archetype, List.filter])
    (by norm_num)⟩

/-! ## C8 — prep coverage -/

/-- A held-out game whose forecast preps three items (A: 50, B: 10, C: 5)
while the game actually sells only item A, 100 units.  Item A stocks out
(50 < 100), yet the zero-actual items B and C are counted as "covered" in
the numerator while the denominator counts only item A. -/
def fcC8 : List ItemFcRow :=
  [⟨"A", 0, 60, 50, "medium_hold"⟩, ⟨"B", 0, 12, 10, "medium_hold"⟩,
   ⟨"C", 0, 6, 5, "medium_hold"⟩]

def txC8 : List Txn := [⟨1, "S", "A", "Food", 100, 0, 0⟩]

/-- C8: `prep_coverage` on the input above evaluates to `2` — greater than
1, and not the fraction of items with `prep_qty ≥ actual` (which is `0`
here: the only item with demand stocked out).  The numerator is taken over
the full outer merge (forecast-only rows are trivially covered) while the
denominator counts only items with positive actuals. -/
theorem C8_code_eval : prep_coverage fcC8 txC8 = 2 ∧ 1 < prep_coverage fcC8 txC8 := by
  have h : prep_coverage fcC8 txC8 = 2 := by
    simp [prep_coverage, prepCompKeys, prepQtySum, actualQtySum, fcC8, txC8,
      List.filter, List.dedup]
  exact ⟨h, by rw [h]; norm_num⟩

/-! ## C2 — gating of the overall volume signal -/

theorem standShortOf_ne_overall {s : String} (h : s ≠ "overall") :
    standShortOf s ≠ "overall" := by
  unfold standShortOf
  cases hfind : STAND_SHORT.find? (fun kv => kv.1 == s) with
  | none => simpa using h
  | some kv =>
      have hmem := List.mem_of_find?_eq_some hfind
      simp only [STAND_SHORT, List.mem_cons, List.not_mem_nil, or_false] at hmem
      rcases hmem with h1 | h1 | h1 | h1 | h1 <;> subst h1 <;> simp

theorem mem_standsThisWindow_stand {d : Detector} {w : ℤ} {s : String}
    (h : s ∈ standsThisWindow d w) : ∃ e ∈ d.events, e.stand = s := by
  unfold standsThisWindow at h
  rw [List.mem_dedup] at h
  obtain ⟨e, he, rfl⟩ := List.mem_map.mp h
  exact ⟨e, (List.mem_filter.mp he).1, rfl⟩

theorem mem_itemsThisWindow_item {d : Detector} {w : ℤ} {i : String}
    (h : i ∈ itemsThisWindow d w) : ∃ e ∈ d.events, e.item = i := by
  unfold itemsThisWindow at h
  rw [List.mem_dedup] at h
  obtain ⟨e, he, rfl⟩ := List.mem_map.mp h
  exact ⟨e, (List.mem_filter.mp he).1, rfl⟩

theorem standSignalsFor_scope {d : Detector} {w : ℤ} {s : String}
    {sig : DriftSignal} (h : sig ∈ standSignalsFor d w s) :
    sig.scope = standShortOf s := by
  unfold standSignalsFor at h
  split_ifs at h <;> simp_all

theorem itemSignalsFor_scope {d : Detector} {w : ℤ} {i : String}
    {sig : DriftSignal} (h : sig ∈ itemSignalsFor d w i) : sig.scope = i := by
  unfold itemSignalsFor at h
  split_ifs at h <;> simp_all

/-- Membership in `check_drift`'s sorted signal list, decomposed into the
three emitting blocks. -/
theorem mem_check_drift_signals {d : Detector} {w : ℤ} {sig : DriftSignal} :
    sig ∈ (check_drift d w).signals ↔
      (sig ∈ (overallVolumeSignals d w).1 ∨
        (∃ s ∈ standsThisWindow d w, sig ∈ standSignalsFor d w s) ∨
        (∃ i ∈ itemsThisWindow d w, sig ∈ itemSignalsFor d w i)) := by
  show sig ∈ List.insertionSort _ _ ↔ _
  rw [(List.perm_insertionSort _ _).mem_iff, List.mem_append, List.mem_append,
    List.mem_flatMap, List.mem_flatMap, or_assoc]

/-- C2: the drift report for window `w` contains an overall volume signal
iff the window's stand-forecast total is positive, at least
`DRIFT_MIN_SAMPLES = 5` events were ingested for the window, and the
relative deviation reaches the 15% volume threshold; in particular a
zero-forecast window or a sparse window (e.g. zero events against a nonzero
forecast) yields no overall signal at all (and no division by zero).  The
hypothesis rules out entities literally named "overall", whose stand/item
signals would collide with the overall scope label. -/
theorem C2_overall_signal_iff (d : Detector) (w : ℤ)
    (hnames : ∀ e ∈ d.events, e.stand ≠ "overall" ∧ e.item ≠ "overall") :
    (∃ sig ∈ (check_drift d w).signals, sig.scope = "overall") ↔
      (0 < fcStandTotal d w ∧ DRIFT_MIN_SAMPLES ≤ (event_count_by_window d w : ℤ) ∧
        DRIFT_VOLUME_THRESHOLD ≤ |volDrift d w|) := by
  constructor
  · rintro ⟨sig, hsig, hscope⟩
    rcases mem_check_drift_signals.mp hsig with hov | ⟨s, hs, hmem⟩ | ⟨i, hi, hmem⟩
    · unfold overallVolumeSignals at hov
      by_cases h1 : 0 < fcStandTotal d w ∧
          DRIFT_MIN_SAMPLES ≤ (event_count_by_window d w : ℤ)
      · by_cases h2 : DRIFT_VOLUME_THRESHOLD ≤ |volDrift d w|
        · exact ⟨h1.1, h1.2, h2⟩
        · rw [if_pos h1, if_neg h2] at hov
          simp at hov
      · rw [if_neg h1] at hov
        simp at hov
    · obtain ⟨e, he, rfl⟩ := mem_standsThisWindow_stand hs
      rw [standSignalsFor_scope hmem] at hscope
      exact absurd hscope (standShortOf_ne_overall (hnames e he).1)
    · obtain ⟨e, he, rfl⟩ := mem_itemsThisWindow_item hi
      rw [itemSignalsFor_scope hmem] at hscope
      exact absurd hscope (hnames e he).2
  · rintro ⟨h1, h2, h3⟩
    refine ⟨⟨"volume", "overall", volDrift d w,
      if 0 < volDrift d w then "above" else "below", w⟩, ?_, rfl⟩
    apply mem_check_drift_signals.mpr
    left
    unfold overallVolumeSignals
    rw [if_pos ⟨h1, h2⟩, if_pos h3]
    simp

/-- A live-game detector: one stand "S" forecast at 100 units in window 0,
with five ingested events of 24 units each (actual 120 = forecast + 20%). -/
def dEx : Detector where
  fc_stand := [(("S", 0), 100)]
  fc_item := []
  fc_stand_item := []
  events := List.replicate 5 ⟨"S", "I", "Food", 24, 0⟩
  cumulative_forecast := 0
  history := []

/-- C2 witness: the gating equivalence evaluated on `dEx` (no entity is
named "overall"). -/
theorem C2_witness :
    (∀ e ∈ dEx.events, e.stand ≠ "overall" ∧ e.item ≠ "overall") ∧
    ((∃ sig ∈ (check_drift dEx 0).signals, sig.scope = "overall") ↔
      (0 < fcStandTotal dEx 0 ∧
        DRIFT_MIN_SAMPLES ≤ (event_count_by_window dEx 0 : ℤ) ∧
        DRIFT_VOLUME_THRESHOLD ≤ |volDrift dEx 0|)) :=
  ⟨by decide, C2_overall_signal_iff dEx 0 (by decide)⟩

/-! ## C3 — the +20% drift scenario -/

/-- C3: when a window's stand-forecast total is 100 and at least five events
totalling 120 units have been ingested for it, `check_drift` reports
`overall_volume_drift = 0.20` and lists an overall volume signal of
magnitude `0.20`, direction `"above"` and severity `"info"` (listed despite
info severity because 0.20 ≥ 0.15); severity in general derives from
`|magnitude|`: ≥ 0.40 critical, ≥ 0.25 warning, else info. -/
theorem C3_twenty_percent_drift (d : Detector) (w : ℤ)
    (hfc : fcStandTotal d w = 100)
    (hcnt : DRIFT_MIN_SAMPLES ≤ (event_count_by_window d w : ℤ))
    (hact : actual_by_window d w = 120) :
    (check_drift d w).overall_volume_drift = 0.20 ∧
    (∃ sig ∈ (check_drift d w).signals,
      sig.drift_type = "volume" ∧ sig.scope = "overall" ∧
        sig.magnitude = 0.20 ∧ sig.direction = "above" ∧ severity sig = "info") ∧
    (∀ sig : DriftSignal, severity sig =
      if 0.40 ≤ |sig.magnitude| then "critical"
      else if 0.25 ≤ |sig.magnitude| then "warning" else "info") := by
  have hv : volDrift d w = 0.20 := by
    unfold volDrift
    rw [hact, hfc]
    norm_num
  have hgate : 0 < fcStandTotal d w ∧
      DRIFT_MIN_SAMPLES ≤ (event_count_by_window d w : ℤ) := by
    rw [hfc]
    exact ⟨by norm_num, hcnt⟩
  have hthr : DRIFT_VOLUME_THRESHOLD ≤ |volDrift d w| := by
    rw [hv]
    unfold DRIFT_VOLUME_THRESHOLD
    norm_num [abs_of_nonneg]
  refine ⟨?_, ?_, fun sig => rfl⟩
  · show (overallVolumeSignals d w).2 = 0.20
    unfold overallVolumeSignals
    rw [if_pos hgate]
    exact hv
  · refine ⟨⟨"volume", "overall", volDrift d w,
      if 0 < volDrift d w then "above" else "below", w⟩, ?_, rfl, rfl, hv, ?_, ?_⟩
    · apply mem_check_drift_signals.mpr
      left
      unfold overallVolumeSignals
      rw [if_pos hgate, if_pos hthr]
      simp
    · rw [hv]
      norm_num
    · unfold severity
      rw [hv]
      norm_num [abs_of_nonneg]

/-- C3 witness: the scenario realised on `dEx` (five events of 24 against a
100-unit forecast). -/
theorem C3_witness :
    (fcStandTotal dEx 0 = 100 ∧
      DRIFT_MIN_SAMPLES ≤ (event_count_by_window dEx 0 : ℤ) ∧
      actual_by_window dEx 0 = 120) ∧
    ((check_drift dEx 0).overall_volume_drift = 0.20 ∧
      (∃ sig ∈ (check_drift dEx 0).signals,
        sig.drift_type = "volume" ∧ sig.scope = "overall" ∧
          sig.magnitude = 0.20 ∧ sig.direction = "above" ∧ severity sig = "info") ∧
      (∀ sig : DriftSignal, severity sig =
        if 0.40 ≤ |sig.magnitude| then "critical"
        else if 0.25 ≤ |sig.magnitude| then "warning" else "info")) :=
  ⟨⟨by decide, by decide, by decide⟩,
    C3_twenty_percent_drift dEx 0 (by decide) (by decide) (by decide)⟩

/-! ## C10 — stands with actual sales but no positive forecast -/

theorem mem_check_drift_stand_drifts {d : Detector} {w : ℤ}
    {p : String × DriftVal} :
    p ∈ (check_drift d w).stand_drifts ↔
      ∃ s ∈ standsThisWindow d w, standDriftEntry d w s = some p := by
  show p ∈ (standsThisWindow d w).filterMap (standDriftEntry d w) ↔ _
  rw [List.mem_filterMap]

theorem standDriftEntry_fst {d : Detector} {w : ℤ} {s : String}
    {p : String × DriftVal} (h : standDriftEntry d w s = some p) : p.1 = s := by
  unfold standDriftEntry at h
  split_ifs at h
  · rw [← Option.some_inj.mp h]
  · rw [← Option.some_inj.mp h]

/-- C10: for a stand with ingested sales in window `w` but no positive
forecast entry for `(stand, w)`, `check_drift` never divides by the zero
forecast: when the stand's actual quantity exceeds `DRIFT_MIN_SAMPLES = 5`
it records `float("inf")` in `stand_drifts` and emits a volume signal of
magnitude exactly `1.0`, direction `"above"`; when the actual quantity is 5
or less it records no `stand_drifts` entry and emits no signal for that
stand.  The last three hypotheses rule out display-name collisions (another
entity whose scope label coincides with this stand's). -/
theorem C10_no_forecast_stand (d : Detector) (w : ℤ) (s : String)
    (hs : s ∈ standsThisWindow d w)
    (hfc : ¬ 0 < fcStandGet d s w)
    (hitem : ∀ e ∈ d.events, e.item ≠ standShortOf s)
    (hstand : ∀ e ∈ d.events, e.stand ≠ s → standShortOf e.stand ≠ standShortOf s)
    (hov : standShortOf s ≠ "overall") :
    (DRIFT_MIN_SAMPLES < actual_by_stand_window d s w →
      ((s, DriftVal.inf) ∈ (check_drift d w).stand_drifts ∧
        ∃ sig ∈ (check_drift d w).signals,
          sig.scope = standShortOf s ∧ sig.drift_type = "volume" ∧
            sig.magnitude = 1 ∧ sig.direction = "above")) ∧
    (actual_by_stand_window d s w ≤ DRIFT_MIN_SAMPLES →
      ((∀ v, (s, v) ∉ (check_drift d w).stand_drifts) ∧
        ¬ ∃ sig ∈ (check_drift d w).signals, sig.scope = standShortOf s)) := by
  constructor
  · intro h5
    constructor
    · apply mem_check_drift_stand_drifts.mpr
      refine ⟨s, hs, ?_⟩
      unfold standDriftEntry
      rw [if_neg hfc, if_pos h5]
    · refine ⟨⟨"volume", standShortOf s, 1, "above", w⟩, ?_, rfl, rfl, rfl, rfl⟩
      apply mem_check_drift_signals.mpr
      right; left
      refine ⟨s, hs, ?_⟩
      unfold standSignalsFor
      rw [if_neg hfc, if_pos h5]
      simp
  · intro h5
    have hentry : standDriftEntry d w s = none := by
      unfold standDriftEntry
      rw [if_neg hfc, if_neg (by omega)]
    constructor
    · intro v hmem
      obtain ⟨s', _, hsome⟩ := mem_check_drift_stand_drifts.mp hmem
      have hss : s = s' := standDriftEntry_fst hsome
      rw [← hss, hentry] at hsome
      exact Option.noConfusion hsome
    · rintro ⟨sig, hsig, hscope⟩
      rcases mem_check_drift_signals.mp hsig with hovm | ⟨s', hs', hmem⟩ | ⟨i, hi, hmem⟩
      · unfold overallVolumeSignals at hovm
        split_ifs at hovm <;> simp_all
      · by_cases heq : s' = s
        · subst heq
          unfold standSignalsFor at hmem
          rw [if_neg hfc, if_neg (by omega)] at hmem
          simp at hmem
        · obtain ⟨e, he, rfl⟩ := mem_standsThisWindow_stand hs'
          rw [standSignalsFor_scope hmem] at hscope
          exact hstand e he heq hscope
      · obtain ⟨e, he, rfl⟩ := mem_itemsThisWindow_item hi
        rw [itemSignalsFor_scope hmem] at hscope
        exact hitem e he hscope

/-- A detector whose forecast covers only stand "T", while events arrive at
the untracked stands "S" (6 units, above the sample floor) and "U"
(3 units, at or below it). -/
def dC10 : Detector where
  fc_stand := [(("T", 0), 50)]
  fc_item := []
  fc_stand_item := []
  events := List.replicate 6 ⟨"S", "I", "Food", 1, 0⟩ ++
    List.replicate 3 ⟨"U", "I", "Food", 1, 0⟩
  cumulative_forecast := 0
  history := []

/-- C10 witness: both branches realised on `dC10` — stand "S" gets the
`inf` drift entry and the magnitude-1 "above" signal, stand "U" gets
neither. -/
theorem C10_witness :
    ("S" ∈ standsThisWindow dC10 0 ∧ ¬ 0 < fcStandGet dC10 "S" 0 ∧
      DRIFT_MIN_SAMPLES < actual_by_stand_window dC10 "S" 0 ∧
      "U" ∈ standsThisWindow dC10 0 ∧ ¬ 0 < fcStandGet dC10 "U" 0 ∧
      actual_by_stand_window dC10 "U" 0 ≤ DRIFT_MIN_SAMPLES) ∧
    (("S", DriftVal.inf) ∈ (check_drift dC10 0).stand_drifts ∧
      ∃ sig ∈ (check_drift dC10 0).signals, sig.scope = standShortOf "S" ∧
        sig.drift_type = "volume" ∧ sig.magnitude = 1 ∧ sig.direction = "above") ∧
    ((∀ v, ("U", v) ∉ (check_drift dC10 0).stand_drifts) ∧
      ¬ ∃ sig ∈ (check_drift dC10 0).signals, sig.scope = standShortOf "U") :=
  ⟨⟨by decide, by decide, by decide, by decide, by decide, by decide⟩,
   (C10_no_forecast_stand dC10 0 "S" (by decide) (by decide) (by decide)
      (by decide) (by decide)).1 (by decide),
   (C10_no_forecast_stand dC10 0 "U" (by decide) (by decide) (by decide)
      (by decide) (by decide)).2 (by decide)⟩

/-! ## C9 — traffic-light classification and worst-first ordering -/

theorem classify_status_spec (v : DriftVal) :
    (classify_status v = .green ↔ dAbs v ≤ (GREEN_THRESHOLD : WithTop ℚ)) ∧
    (classify_status v = .yellow ↔ ((GREEN_THRESHOLD : WithTop ℚ) < dAbs v ∧
      dAbs v ≤ (YELLOW_THRESHOLD : WithTop ℚ))) ∧
    (classify_status v = .red ↔ (YELLOW_THRESHOLD : WithTop ℚ) < dAbs v) := by
  have hGY : (GREEN_THRESHOLD : WithTop ℚ) ≤ (YELLOW_THRESHOLD : WithTop ℚ) := by
    unfold GREEN_THRESHOLD YELLOW_THRESHOLD
    exact_mod_cast (by norm_num : (0.15 : ℚ) ≤ 0.30)
  unfold classify_status
  split_ifs with h1 h2
  · exact ⟨by simp [h1], by simp [not_lt.mpr h1],
      by simp [not_lt.mpr (le_trans h1 hGY)]⟩
  · exact ⟨by simp [h1], by simp [not_le.mp h1, h2], by simp [not_lt.mpr h2]⟩
  · exact ⟨by simp [h1], by simp [h2], by simp [not_le.mp h2]⟩

/-- C9: whenever a drift report exists for window `w`, every per-stand
status returned by `update` classifies that stand's drift by the two fixed
thresholds — green iff `|drift| ≤ 0.15`, yellow iff `0.15 < |drift| ≤
0.30`, red iff `0.30 < |drift|` (with `|inf| = ⊤`) — and the returned list
is sorted worst-first: red before yellow before green, and within a tier by
descending absolute drift. -/
theorem C9_statuses_sorted (m : Monitor) (w : ℤ) (r : DriftReport)
    (hrep : (m.detector.history.reverse).find? (fun x => x.time_window == w) = some r) :
    (∀ st ∈ (m.update w).1.stand_statuses,
      ((st.status = .green ↔ dAbs st.drift_pct ≤ (GREEN_THRESHOLD : WithTop ℚ)) ∧
        (st.status = .yellow ↔ ((GREEN_THRESHOLD : WithTop ℚ) < dAbs st.drift_pct ∧
          dAbs st.drift_pct ≤ (YELLOW_THRESHOLD : WithTop ℚ))) ∧
        (st.status = .red ↔ (YELLOW_THRESHOLD : WithTop ℚ) < dAbs st.drift_pct))) ∧
    (m.update w).1.stand_statuses.Pairwise standStatusLe := by
  have hupd : (m.update w).1.stand_statuses =
      List.insertionSort standStatusLe (r.stand_drifts.map fun sd =>
        { stand := sd.1
          status := classify_status sd.2
          drift_pct := sd.2
          forecast_qty := fcStandGet m.detector sd.1 w
          actual_qty := actual_by_stand_window m.detector sd.1 w
          trend := computeTrend (shistGet m.stand_drift_history sd.1 ++ [sd.2])
          : StandStatus }) := by
    unfold Monitor.update
    rw [hrep]
  constructor
  · intro st hst
    rw [hupd, List.mem_insertionSort] at hst
    obtain ⟨sd, _, rfl⟩ := List.mem_map.mp hst
    exact classify_status_spec sd.2
  · rw [hupd]
    exact List.sorted_insertionSort standStatusLe _

/-- A report with four stands spanning all three tiers — drifts `0.5`
(red), `0.1` (green), `inf` (red), `-0.2` (yellow) — sitting in the
detector history at window 0. -/
def rC9 : DriftReport where
  time_window := 0
  signals := []
  overall_volume_drift := 0.1
  stand_drifts := [("A", .fin 0.5), ("B", .fin 0.1), ("C", .inf), ("D", .fin (-0.2))]
  item_drifts := []
  category_mix_drift := []

def mC9 : Monitor where
  detector :=
    { fc_stand := [], fc_item := [], fc_stand_item := [], events := []
      cumulative_forecast := 0, history := [rC9] }
  stand_drift_history := []

/-- C9 witness: the classification/ordering statement realised on the
four-stand report `rC9`. -/
theorem C9_witness :
    ((mC9.detector.history.reverse).find? (fun x => x.time_window == 0) = some rC9) ∧
    ((∀ st ∈ (mC9.update 0).1.stand_statuses,
      ((st.status = .green ↔ dAbs st.drift_pct ≤ (GREEN_THRESHOLD : WithTop ℚ)) ∧
        (st.status = .yellow ↔ ((GREEN_THRESHOLD : WithTop ℚ) < dAbs st.drift_pct ∧
          dAbs st.drift_pct ≤ (YELLOW_THRESHOLD : WithTop ℚ))) ∧
        (st.status = .red ↔ (YELLOW_THRESHOLD : WithTop ℚ) < dAbs st.drift_pct))) ∧
    (mC9.update 0).1.stand_statuses.Pairwise standStatusLe) :=
  ⟨rfl, C9_statuses_sorted mC9 0 rC9 rfl⟩
